import Mathlib

set_option maxRecDepth 8192

/-!
Shallow embedding of the voice-activity-detection (VAD) recorder hook from
`src/hooks/useVADRecorder.ts`.  The repository file contains two concatenated
variants of the hook (an earlier and a later revision, separated by a document
marker); where the two variants differ observably we embed both (`...V1` for
the first variant, lines 1–254, and `...V2` for the second, lines 255–482).
Where they agree a single definition serves both.

Modelling conventions:
* JavaScript numbers (timestamps, volumes, progress values) are rationals `ℚ`;
  all arithmetic the claims depend on (mean of byte magnitudes, `* 2.5`,
  division by the timeout, `Math.min`) is exact on `ℚ`.
* React `useState` values and `useRef` cells are fields of one record
  `VADState`; between externally observable events the refs and the rendered
  state agree, and within a single handler no code path reads a state value
  after writing it, so modelling writes as immediate is observationally
  faithful.
* `Date.now()` is an explicit `now : ℚ` argument; the machine keeps a ghost
  clock field `time` and every time-stamped event requires `time ≤ now`
  (monotone wall clock).
* The `MediaRecorder` is `Option MRState` (`none` = the ref is null); `stop()`
  moves it to `inactive` and the asynchronous `onstop` callback is a separate
  event (`onstopV1` / `onstopV2`).
* The analyser produces one frame of 128 byte magnitudes
  (`fftSize = 256`, so `frequencyBinCount = 128`); the mean is the volume.
* Settings are read live each tick (`settingsRef.current`), so `analyze` takes
  the settings of that tick as an argument; the repository constrains
  `sensitivity` to 0–100 and the silence timeout to a positive number of
  milliseconds (a zero timeout would make the progress division `0/0`, i.e.
  NaN in JavaScript, outside the rational embedding), which the tick event of
  the step relation requires.
-/

inductive RecorderStatus where
  | IDLE
  | LISTENING
  | RECORDING
  | ERROR
deriving DecidableEq, Repr

/-- State of the platform MediaRecorder (the code never pauses, so two
states suffice). -/
inductive MRState where
  | inactive
  | recording
deriving DecidableEq, Repr

/-- A finalized recording artifact (from `src/types.ts`); the blob is kept as
the list of encoded chunk sizes, the URL as an opaque string. -/
structure Recording where
  id : String
  blob : List ℕ
  url : String
  timestamp : ℚ
  duration : ℚ
  transcription : Option String := none
  summary : Option String := none
deriving DecidableEq, Repr

/-- AudioSettings from `src/types.ts`. -/
structure AudioSettings where
  sensitivity : ℚ
  silenceTimeout : ℚ
  autoStart : Bool
deriving DecidableEq, Repr

/-- The complete mutable state of the hook: React state plus every ref cell. -/
structure VADState where
  status : RecorderStatus
  recordings : List Recording
  currentVolume : ℚ
  silenceProgress : ℚ
  recordingDuration : ℚ
  isContinuous : Bool
  mediaRecorder : Option MRState
  chunks : List ℕ
  stream : Bool
  audioContext : Bool
  analyser : Bool
  silenceTimer : Option ℚ
  silenceTimerStart : Option ℚ
  recordingStartTime : Option ℚ
  isVoiceActive : Bool
  animationFrame : Bool
  time : ℚ
deriving DecidableEq, Repr

/-- The initial hook state (all `useState` initialisers and null refs). -/
def initState : VADState where
  status := .IDLE
  recordings := []
  currentVolume := 0
  silenceProgress := 0
  recordingDuration := 0
  isContinuous := false
  mediaRecorder := none
  chunks := []
  stream := false
  audioContext := false
  analyser := false
  silenceTimer := none
  silenceTimerStart := none
  recordingStartTime := none
  isVoiceActive := false
  animationFrame := false
  time := 0

/-- Mean of one frame of byte frequency magnitudes (`sum / dataArray.length`). -/
def avgVolume (frame : List ℕ) : ℚ :=
  ((frame.sum : ℚ)) / (frame.length : ℚ)

/-- `shutdown` (identical in both variants): cancel the frame loop and any
armed silence timer, stop the recorder if not inactive (the recorder ref is
NOT nulled), release the stream and audio context, and reset the session
state to its initial values.  `recordings`, `isContinuous` and the clock are
untouched. -/
def shutdown (s : VADState) : VADState :=
  { s with
    animationFrame := false
    silenceTimer := none
    mediaRecorder := s.mediaRecorder.map fun _ => MRState.inactive
    stream := false
    audioContext := false
    analyser := false
    status := .IDLE
    currentVolume := 0
    silenceProgress := 0
    recordingDuration := 0
    isVoiceActive := false
    silenceTimerStart := none
    recordingStartTime := none
    chunks := [] }

/-- `startMediaRecorder` (identical in both variants): when the recorder
exists and is inactive, clear the chunk buffer, start it, record the start
instant, zero the duration and move to RECORDING; otherwise do nothing. -/
def startMediaRecorder (now : ℚ) (s : VADState) : VADState :=
  if s.mediaRecorder = some MRState.inactive then
    { s with
      chunks := []
      mediaRecorder := some MRState.recording
      recordingStartTime := some now
      recordingDuration := 0
      status := .RECORDING }
  else s

/-- `stopMediaRecorder` (identical in both variants): when the recorder is in
the recording state, stop it; then in continuous mode return to LISTENING
keeping the resources open (progress zeroed, window closed, timer cancelled),
otherwise invoke `shutdown`.  When the recorder is not recording, `shutdown`
unconditionally. -/
def stopMediaRecorder (s : VADState) : VADState :=
  if s.mediaRecorder = some MRState.recording then
    let s1 := { s with mediaRecorder := some MRState.inactive }
    if s1.isContinuous then
      { s1 with
        status := .LISTENING
        silenceProgress := 0
        silenceTimerStart := none
        isVoiceActive := false
        silenceTimer := none }
    else shutdown s1
  else shutdown s

/-- One sampling tick, `analyze` (behaviourally identical in both variants):
early-return when the analyser ref is null; otherwise publish the mean
volume, update the recording duration, then branch on
`average > sensitivity * 2.5`.  Above threshold: mark voice active (starting
a segment when LISTENING), cancel any silence timer and zero the progress.
At or below: arm the silence timer when voice was active while RECORDING and
none is armed, then publish `min(elapsed / silenceTimeout, 1)` while a window
is open during RECORDING, else publish 0. -/
def analyze (st : AudioSettings) (now : ℚ) (frame : List ℕ) (s : VADState) :
    VADState :=
  if s.analyser = false then s
  else
    let average := avgVolume frame
    let threshold := st.sensitivity * (5 / 2)
    let s1 := { s with currentVolume := average, time := now }
    let s2 :=
      { s1 with
        recordingDuration :=
          match s1.recordingStartTime with
          | some t =>
              if s1.status = RecorderStatus.RECORDING then (now - t) / 1000
              else s1.recordingDuration
          | none => s1.recordingDuration }
    if average > threshold then
      let sA :=
        if s2.isVoiceActive = false ∧ s2.status = RecorderStatus.LISTENING then
          startMediaRecorder now { s2 with isVoiceActive := true }
        else { s2 with isVoiceActive := true }
      { sA with
        silenceTimer := none
        silenceTimerStart := none
        silenceProgress := 0
        animationFrame := true }
    else
      let sA :=
        if s2.isVoiceActive = true ∧ s2.status = RecorderStatus.RECORDING ∧
            s2.silenceTimer = none then
          { s2 with
            silenceTimerStart := some now
            silenceTimer := some (now + st.silenceTimeout) }
        else s2
      let sB :=
        { sA with
          silenceProgress :=
            match sA.silenceTimerStart with
            | some t0 =>
                if sA.status = RecorderStatus.RECORDING then
                  min ((now - t0) / st.silenceTimeout) 1
                else 0
            | none => 0 }
      { sB with animationFrame := true }

/-- The silence deadline firing: the scheduled callback runs
`stopMediaRecorder`; the wall clock has advanced to `now`. -/
def fireTimer (now : ℚ) (s : VADState) : VADState :=
  stopMediaRecorder { s with time := now }

/-- A `dataavailable` event with a chunk of `c` bytes: pushed only when
nonempty (`e.data.size > 0`). -/
def chunkArrive (c : ℕ) (s : VADState) : VADState :=
  if 0 < c then { s with chunks := s.chunks ++ [c] } else s

/-- The Recording assembled at finalize time: id freshly generated, blob from
the buffered chunks, timestamp `Date.now()`, duration from the recorded start
instant when present (otherwise 0). -/
def mkRecording (id : String) (now : ℚ) (s : VADState) : Recording where
  id := id
  blob := s.chunks
  url := id
  timestamp := now
  duration :=
    match s.recordingStartTime with
    | some t => (now - t) / 1000
    | none => 0

/-- `mediaRecorder.onstop` of the first variant (lines 185–204): when the
chunk buffer is nonempty, assemble a Recording and prepend it; then, in every
case, clear the buffer and reset the start instant. -/
def onstopV1 (id : String) (now : ℚ) (s : VADState) : VADState :=
  let s1 :=
    if s.chunks ≠ [] then
      { s with recordings := mkRecording id now s :: s.recordings }
    else s
  { s1 with chunks := [], recordingStartTime := none, time := now }

/-- `mediaRecorder.onstop` of the second variant (lines 424–442): when the
chunk buffer is nonempty, assemble a Recording, prepend it and clear the
buffer; the start instant is never reset, and on an empty buffer nothing at
all is mutated. -/
def onstopV2 (id : String) (now : ℚ) (s : VADState) : VADState :=
  let s1 :=
    if s.chunks ≠ [] then
      { s with
        recordings := mkRecording id now s :: s.recordings
        chunks := [] }
    else s
  { s1 with time := now }

/-- Successful `initAudio` (both variants): acquire the stream, build the
audio context and analyser, create a fresh (inactive) recorder, move to
LISTENING and start the frame loop. -/
def initAudioOk (s : VADState) : VADState :=
  { s with
    stream := true
    audioContext := true
    analyser := true
    mediaRecorder := some MRState.inactive
    chunks := s.chunks
    status := .LISTENING
    animationFrame := true }

/-- Failed `initAudio` (both variants): `getUserMedia` rejects before any
resource is assigned; the catch sets status to ERROR (and variant 1 returns
`false`). -/
def initAudioFail (s : VADState) : VADState :=
  { s with status := .ERROR }

/-- `toggleListen` of the first variant (lines 218–229): when the argument is
a boolean, publish it as `isContinuous` first; then from IDLE or ERROR
attempt acquisition (returning its success flag), otherwise shut down and
return `false`.  `acqOk` is the environment's answer to `getUserMedia`. -/
def toggleListenV1 (c : Option Bool) (acqOk : Bool) (s : VADState) :
    VADState × Bool :=
  let s0 :=
    match c with
    | some b => { s with isContinuous := b }
    | none => s
  if s0.status = RecorderStatus.IDLE ∨ s0.status = RecorderStatus.ERROR then
    if acqOk then (initAudioOk s0, true) else (initAudioFail s0, false)
  else (shutdown s0, false)

/-- `toggleListen` of the second variant (lines 453–460): the continuous flag
defaults to `false` and is always published; no value is returned. -/
def toggleListenV2 (c : Bool) (acqOk : Bool) (s : VADState) : VADState :=
  let s0 := { s with isContinuous := c }
  if s0.status = RecorderStatus.IDLE ∨ s0.status = RecorderStatus.ERROR then
    if acqOk then initAudioOk s0 else initAudioFail s0
  else shutdown s0

/-- `deleteRecording` on the recordings list (both variants filter the same
way; variant 2 additionally revokes the object URL, a side effect outside the
list). -/
def deleteRecording (id : String) (l : List Recording) : List Recording :=
  l.filter fun r => r.id ≠ id

/-- The clamp the specification describes for the silence progress. -/
def specClamp (x : ℚ) : ℚ := min (max x 0) 1

/-- Well-formedness of the live-read settings of one tick: the sensitivity
knob is the 0–100 range of `src/types.ts` and the silence timeout is a
positive number of milliseconds. -/
def ValidSettings (st : AudioSettings) : Prop :=
  0 ≤ st.sensitivity ∧ st.sensitivity ≤ 100 ∧ 0 < st.silenceTimeout

/-- Well-formedness of one analyser frame: `frequencyBinCount = 128` byte
magnitudes. -/
def ValidFrame (frame : List ℕ) : Prop :=
  frame.length = 128 ∧ ∀ x ∈ frame, x ≤ 255

instance (st : AudioSettings) : Decidable (ValidSettings st) := by
  unfold ValidSettings; infer_instance

instance (frame : List ℕ) : Decidable (ValidFrame frame) := by
  unfold ValidFrame; infer_instance

/-- The states the hook can reach from its initial render, under a monotone
wall clock, well-formed settings and frames, and the platform scheduling
contract (the silence callback fires only while its timer handle is armed,
`onstop` only while a recorder exists). -/
inductive Reachable : VADState → Prop where
  | init : Reachable initState
  | tick (st : AudioSettings) (now : ℚ) (frame : List ℕ) {s : VADState} :
      Reachable s → ValidSettings st → ValidFrame frame → s.time ≤ now →
      Reachable (analyze st now frame s)
  | fire (now : ℚ) {s : VADState} (d : ℚ) :
      Reachable s → s.silenceTimer = some d → s.time ≤ now →
      Reachable (fireTimer now s)
  | chunk (c : ℕ) {s : VADState} :
      Reachable s → s.mediaRecorder ≠ none →
      Reachable (chunkArrive c s)
  | stopV1 (id : String) (now : ℚ) {s : VADState} :
      Reachable s → s.mediaRecorder ≠ none → s.time ≤ now →
      Reachable (onstopV1 id now s)
  | stopV2 (id : String) (now : ℚ) {s : VADState} :
      Reachable s → s.mediaRecorder ≠ none → s.time ≤ now →
      Reachable (onstopV2 id now s)
  | toggleV1 (c : Option Bool) (acqOk : Bool) {s : VADState} :
      Reachable s → Reachable (toggleListenV1 c acqOk s).1
  | toggleV2 (c : Bool) (acqOk : Bool) {s : VADState} :
      Reachable s → Reachable (toggleListenV2 c acqOk s)
  | down {s : VADState} :
      Reachable s → Reachable (shutdown s)

/-- The inductive invariant of the hook state:  silence progress stays in
[0,1] and is nonzero only during RECORDING with an open window; every stored
instant is in the past; the timer handle and the window-start instant are
armed together and only while RECORDING; LISTENING implies a quiescent,
inactive recorder with a live analyser; RECORDING implies a live recorder
and analyser; IDLE and ERROR imply a torn-down analyser and inactive voice
flag. -/
structure VadInv (s : VADState) : Prop where
  prog_nonneg : 0 ≤ s.silenceProgress
  prog_le_one : s.silenceProgress ≤ 1
  prog_rec : s.silenceProgress ≠ 0 →
    s.status = RecorderStatus.RECORDING ∧ s.silenceTimerStart.isSome
  startle : ∀ t0, s.silenceTimerStart = some t0 → t0 ≤ s.time
  recle : ∀ t, s.recordingStartTime = some t → t ≤ s.time
  timer_iff : s.silenceTimer.isSome ↔ s.silenceTimerStart.isSome
  timer_rec : s.silenceTimer.isSome → s.status = RecorderStatus.RECORDING
  listen : s.status = RecorderStatus.LISTENING →
    s.isVoiceActive = false ∧ s.mediaRecorder = some MRState.inactive ∧
    s.analyser = true
  recg : s.status = RecorderStatus.RECORDING →
    s.mediaRecorder = some MRState.recording ∧ s.analyser = true
  idleerr : s.status = RecorderStatus.IDLE ∨ s.status = RecorderStatus.ERROR →
    s.analyser = false ∧ s.isVoiceActive = false

theorem inv_init : VadInv initState := by
  constructor <;> simp [initState]

theorem inv_shutdown (s : VADState) : VadInv (shutdown s) := by
  constructor <;> simp [shutdown]

theorem inv_fire (now : ℚ) (s : VADState) (h : VadInv s) (d : ℚ)
    (hd : s.silenceTimer = some d) (hnow : s.time ≤ now) :
    VadInv (fireTimer now s) := by
  have hrec : s.status = RecorderStatus.RECORDING := h.timer_rec (by simp [hd])
  obtain ⟨hmr, han⟩ := h.recg hrec
  by_cases hc : s.isContinuous = true
  · constructor <;> simp [fireTimer, stopMediaRecorder, hmr, hc, han]
    exact fun t ht => le_trans (h.recle t ht) hnow
  · have heq : fireTimer now s =
        shutdown { s with time := now, mediaRecorder := some MRState.inactive } := by
      simp [fireTimer, stopMediaRecorder, hmr, hc]
    rw [heq]
    exact inv_shutdown _

theorem inv_transport (s u : VADState) (h : VadInv s)
    (hp : u.silenceProgress = s.silenceProgress)
    (hst : u.status = s.status)
    (htm : u.silenceTimer = s.silenceTimer)
    (hts : u.silenceTimerStart = s.silenceTimerStart)
    (hmr : u.mediaRecorder = s.mediaRecorder)
    (han : u.analyser = s.analyser)
    (hva : u.isVoiceActive = s.isVoiceActive)
    (hrt : u.recordingStartTime = s.recordingStartTime ∨
      u.recordingStartTime = none)
    (htime : s.time ≤ u.time) : VadInv u := by
  constructor
  · rw [hp]; exact h.prog_nonneg
  · rw [hp]; exact h.prog_le_one
  · rw [hp, hst, hts]; exact h.prog_rec
  · rw [hts]; exact fun t0 ht => le_trans (h.startle t0 ht) htime
  · rcases hrt with hrt | hrt
    · rw [hrt]; exact fun t ht => le_trans (h.recle t ht) htime
    · rw [hrt]; intro t ht; exact absurd ht (by simp)
  · rw [htm, hts]; exact h.timer_iff
  · rw [htm, hst]; exact h.timer_rec
  · rw [hst, hva, hmr, han]; exact h.listen
  · rw [hst, hmr, han]; exact h.recg
  · rw [hst, han, hva]; exact h.idleerr

theorem inv_chunk (c : ℕ) (s : VADState) (h : VadInv s) :
    VadInv (chunkArrive c s) := by
  unfold chunkArrive
  split
  · exact inv_transport s _ h rfl rfl rfl rfl rfl rfl rfl (Or.inl rfl) le_rfl
  · exact h

theorem inv_onstopV1 (id : String) (now : ℚ) (s : VADState) (h : VadInv s)
    (hnow : s.time ≤ now) : VadInv (onstopV1 id now s) := by
  refine inv_transport s _ h ?_ ?_ ?_ ?_ ?_ ?_ ?_ (Or.inr ?_) ?_ <;>
    (unfold onstopV1; split <;> simp [hnow])

theorem inv_onstopV2 (id : String) (now : ℚ) (s : VADState) (h : VadInv s)
    (hnow : s.time ≤ now) : VadInv (onstopV2 id now s) := by
  refine inv_transport s _ h ?_ ?_ ?_ ?_ ?_ ?_ ?_ (Or.inl ?_) ?_ <;>
    (unfold onstopV2; split <;> simp [hnow])

theorem inv_idle_aux (s : VADState) (h : VadInv s)
    (hie : s.status = RecorderStatus.IDLE ∨ s.status = RecorderStatus.ERROR) :
    s.silenceProgress = 0 ∧ s.silenceTimer = none ∧
      s.silenceTimerStart = none := by
  have hp : s.silenceProgress = 0 := by
    by_contra hne
    have hr := (h.prog_rec hne).1
    rcases hie with hie | hie <;> rw [hie] at hr <;> exact absurd hr (by decide)
  have htm : s.silenceTimer = none := by
    cases htmq : s.silenceTimer with
    | none => rfl
    | some d =>
        have hr := h.timer_rec (by simp [htmq])
        rcases hie with hie | hie <;> rw [hie] at hr <;>
          exact absurd hr (by decide)
  have hts : s.silenceTimerStart = none := by
    have hiff := h.timer_iff
    rw [htm] at hiff
    simp at hiff
    exact hiff
  exact ⟨hp, htm, hts⟩

theorem inv_initOk (s0 : VADState) (h0 : VadInv s0)
    (hie : s0.status = RecorderStatus.IDLE ∨
      s0.status = RecorderStatus.ERROR) :
    VadInv (initAudioOk s0) := by
  obtain ⟨hp, htm, hts⟩ := inv_idle_aux s0 h0 hie
  obtain ⟨han, hva⟩ := h0.idleerr hie
  refine ⟨?_, ?_, ?_, ?_, ?_, ?_, ?_, ?_, ?_, ?_⟩ <;>
    simp [initAudioOk, hp, htm, hts, hva]
  exact h0.recle

theorem inv_initFail (s0 : VADState) (h0 : VadInv s0)
    (hie : s0.status = RecorderStatus.IDLE ∨
      s0.status = RecorderStatus.ERROR) :
    VadInv (initAudioFail s0) := by
  obtain ⟨hp, htm, hts⟩ := inv_idle_aux s0 h0 hie
  obtain ⟨han, hva⟩ := h0.idleerr hie
  refine ⟨?_, ?_, ?_, ?_, ?_, ?_, ?_, ?_, ?_, ?_⟩ <;>
    simp [initAudioFail, hp, htm, hts, hva, han]
  exact h0.recle

theorem inv_toggleV1 (c : Option Bool) (acqOk : Bool) (s : VADState)
    (h : VadInv s) : VadInv (toggleListenV1 c acqOk s).1 := by
  have core : ∀ s0 : VADState, VadInv s0 →
      VadInv (if s0.status = RecorderStatus.IDLE ∨
                s0.status = RecorderStatus.ERROR then
                if acqOk = true then (initAudioOk s0, true)
                else (initAudioFail s0, false)
              else (shutdown s0, false)).1 := by
    intro s0 h0
    split
    · split
      · exact inv_initOk s0 h0 (by assumption)
      · exact inv_initFail s0 h0 (by assumption)
    · exact inv_shutdown s0
  cases c with
  | none => exact core s h
  | some b =>
      exact core _ (inv_transport s _ h rfl rfl rfl rfl rfl rfl rfl
        (Or.inl rfl) le_rfl)

theorem inv_toggleV2 (c : Bool) (acqOk : Bool) (s : VADState)
    (h : VadInv s) : VadInv (toggleListenV2 c acqOk s) := by
  have h0 : VadInv { s with isContinuous := c } :=
    inv_transport s _ h rfl rfl rfl rfl rfl rfl rfl (Or.inl rfl) le_rfl
  simp only [toggleListenV2]
  split
  · split
    · exact inv_initOk _ h0 (by assumption)
    · exact inv_initFail _ h0 (by assumption)
  · exact inv_shutdown _

theorem inv_tick (st : AudioSettings) (now : ℚ) (frame : List ℕ)
    (s : VADState) (h : VadInv s) (hst : ValidSettings st)
    (hnow : s.time ≤ now) : VadInv (analyze st now frame s) := by
  obtain ⟨hs0, hs100, hT⟩ := hst
  by_cases han : s.analyser = false
  · simpa [analyze, han] using h
  have han' : s.analyser = true := by
    cases hq : s.analyser
    · exact absurd hq han
    · rfl
  by_cases hgt : avgVolume frame > st.sensitivity * (5 / 2)
  · by_cases hvl : s.isVoiceActive = false ∧
        s.status = RecorderStatus.LISTENING
    · obtain ⟨hv, hl⟩ := hvl
      obtain ⟨-, hmr, -⟩ := h.listen hl
      refine ⟨?_, ?_, ?_, ?_, ?_, ?_, ?_, ?_, ?_, ?_⟩ <;>
        simp [analyze, han', hgt, hv, hl, hmr, startMediaRecorder]
    · refine ⟨?_, ?_, ?_, ?_, ?_, ?_, ?_, ?_, ?_, ?_⟩ <;>
        simp [analyze, han', hgt, hvl]
      · exact fun t ht => le_trans (h.recle t ht) hnow
      · intro hl
        exact absurd ⟨(h.listen hl).1, hl⟩ hvl
      · exact fun hr => (h.recg hr).1
      · exact ⟨fun hie => absurd (h.idleerr (Or.inl hie)).1 (by simp [han']),
          fun hie => absurd (h.idleerr (Or.inr hie)).1 (by simp [han'])⟩
  · by_cases harm : s.isVoiceActive = true ∧
        s.status = RecorderStatus.RECORDING ∧ s.silenceTimer = none
    · obtain ⟨hva, hrec, htm⟩ := harm
      have hm01 : min (0 : ℚ) 1 = 0 := min_eq_left zero_le_one
      refine ⟨?_, ?_, ?_, ?_, ?_, ?_, ?_, ?_, ?_, ?_⟩ <;>
        simp [analyze, han', hgt, hva, hrec, htm, hm01, (h.recg hrec).1]
      exact fun t ht => le_trans (h.recle t ht) hnow
    · rcases hts : s.silenceTimerStart with _ | t0
      · have htm0 : s.silenceTimer = none := by
          have hiff := h.timer_iff
          rw [hts] at hiff
          simpa using hiff
        have hvr : ¬(s.isVoiceActive = true ∧
            s.status = RecorderStatus.RECORDING) :=
          fun hp => harm ⟨hp.1, hp.2, htm0⟩
        refine ⟨?_, ?_, ?_, ?_, ?_, ?_, ?_, ?_, ?_, ?_⟩ <;>
          simp [analyze, han', hgt, hvr, hts, htm0]
        · exact fun t ht => le_trans (h.recle t ht) hnow
        · exact fun hl => ⟨(h.listen hl).1, (h.listen hl).2.1⟩
        · exact fun hr => (h.recg hr).1
        · exact ⟨fun hie => absurd (h.idleerr (Or.inl hie)).1 (by simp [han']),
            fun hie => absurd (h.idleerr (Or.inr hie)).1 (by simp [han'])⟩
      · have htm1 : s.silenceTimer.isSome = true :=
          h.timer_iff.mpr (by simp [hts])
        obtain ⟨d, hd⟩ := Option.isSome_iff_exists.mp htm1
        by_cases hrec : s.status = RecorderStatus.RECORDING
        · have ht0 : t0 ≤ now := le_trans (h.startle t0 hts) hnow
          have hnn : 0 ≤ (now - t0) / st.silenceTimeout :=
            div_nonneg (by linarith) hT.le
          refine ⟨?_, ?_, ?_, ?_, ?_, ?_, ?_, ?_, ?_, ?_⟩ <;>
            simp [analyze, han', hgt, hts, hrec, hd, ht0, (h.recg hrec).1]
          · exact hnn
          · exact fun t ht => le_trans (h.recle t ht) hnow
        · exact absurd (h.timer_rec htm1) hrec

/-- Every reachable state satisfies the inductive invariant. -/
theorem reachable_inv {s : VADState} (h : Reachable s) : VadInv s := by
  induction h with
  | init => exact inv_init
  | tick st now frame hr hst hfr hnow ih =>
      exact inv_tick st now frame _ ih hst hnow
  | fire now d hr hd hnow ih => exact inv_fire now _ ih d hd hnow
  | chunk c hr hm ih => exact inv_chunk c _ ih
  | stopV1 id now hr hm hnow ih => exact inv_onstopV1 id now _ ih hnow
  | stopV2 id now hr hm hnow ih => exact inv_onstopV2 id now _ ih hnow
  | toggleV1 c acqOk hr ih => exact inv_toggleV1 c acqOk _ ih
  | toggleV2 c acqOk hr ih => exact inv_toggleV2 c acqOk _ ih
  | down hr ih => exact inv_shutdown _

/-- Example settings from §8 of the spec: sensitivity 25 (threshold 62.5)
and a 1500 ms silence timeout. -/
def stQ : AudioSettings where
  sensitivity := 25
  silenceTimeout := 1500
  autoStart := false

/-- A loud analyser frame: every bin at 200 (mean 200). -/
def loudFrame : List ℕ := List.replicate 128 200

/-- A quiet analyser frame: every bin at 8 (mean 8). -/
def quietFrame : List ℕ := List.replicate 128 8

/-- LISTENING state reached by a successful continuous start. -/
def sListenT : VADState := (toggleListenV1 (some true) true initState).1

/-- LISTENING state reached by a successful non-continuous start. -/
def sListenF : VADState := (toggleListenV1 (some false) true initState).1

/-- ERROR state reached by a failed acquisition from Idle. -/
def sErr : VADState := (toggleListenV1 (some false) false initState).1

/-- RECORDING state: voice onset at t = 1000. -/
def sRec : VADState := analyze stQ 1000 loudFrame sListenT

/-- RECORDING state with one buffered chunk. -/
def sRecC : VADState := chunkArrive 5 sRec

/-- RECORDING state with the silence timer armed: silence since t = 1100,
deadline 2600. -/
def sArm : VADState := analyze stQ 1100 quietFrame sRec

/-- The mean of the loud frame is 200, above the threshold 62.5 of `stQ`. -/
theorem avg_loud : avgVolume loudFrame = 200 := by
  unfold avgVolume loudFrame
  rw [List.sum_replicate, List.length_replicate]
  norm_num

/-- The mean of the quiet frame is 8, below the threshold 62.5 of `stQ`. -/
theorem avg_quiet : avgVolume quietFrame = 8 := by
  unfold avgVolume quietFrame
  rw [List.sum_replicate, List.length_replicate]
  norm_num

/-- Explicit form of `sListenT`. -/
def sL : VADState where
  status := .LISTENING
  recordings := []
  currentVolume := 0
  silenceProgress := 0
  recordingDuration := 0
  isContinuous := true
  mediaRecorder := some MRState.inactive
  chunks := []
  stream := true
  audioContext := true
  analyser := true
  silenceTimer := none
  silenceTimerStart := none
  recordingStartTime := none
  isVoiceActive := false
  animationFrame := true
  time := 0

theorem sListenT_eq : sListenT = sL := by decide

/-- Explicit form of `sRec`. -/
def sR : VADState where
  status := .RECORDING
  recordings := []
  currentVolume := 200
  silenceProgress := 0
  recordingDuration := 0
  isContinuous := true
  mediaRecorder := some MRState.recording
  chunks := []
  stream := true
  audioContext := true
  analyser := true
  silenceTimer := none
  silenceTimerStart := none
  recordingStartTime := some 1000
  isVoiceActive := true
  animationFrame := true
  time := 1000

theorem sRec_eq : sRec = sR := by
  show analyze stQ 1000 loudFrame sListenT = sR
  rw [sListenT_eq]
  simp [analyze, avg_loud, stQ, sL, sR, startMediaRecorder]
  norm_num

/-- Explicit form of `sArm`. -/
def sA : VADState where
  status := .RECORDING
  recordings := []
  currentVolume := 8
  silenceProgress := 0
  recordingDuration := 1 / 10
  isContinuous := true
  mediaRecorder := some MRState.recording
  chunks := []
  stream := true
  audioContext := true
  analyser := true
  silenceTimer := some 2600
  silenceTimerStart := some 1100
  recordingStartTime := some 1000
  isVoiceActive := true
  animationFrame := true
  time := 1100

theorem sArm_eq : sArm = sA := by
  show analyze stQ 1100 quietFrame sRec = sA
  rw [sRec_eq]
  simp [analyze, avg_quiet, stQ, sR, sA]
  norm_num

theorem reach_sListenT : Reachable sListenT :=
  Reachable.toggleV1 (some true) true Reachable.init

theorem reach_sListenF : Reachable sListenF :=
  Reachable.toggleV1 (some false) true Reachable.init

theorem reach_sErr : Reachable sErr :=
  Reachable.toggleV1 (some false) false Reachable.init

theorem reach_sRec : Reachable sRec :=
  Reachable.tick stQ 1000 loudFrame reach_sListenT (by decide) (by decide)
    (by decide)

theorem reach_sRecC : Reachable sRecC :=
  Reachable.chunk 5 reach_sRec (by rw [sRec_eq]; simp [sR])

theorem reach_sArm : Reachable sArm :=
  Reachable.tick stQ 1100 quietFrame reach_sRec (by decide) (by decide)
    (by rw [sRec_eq]; norm_num [sR])

/-- C3 counterexample: from a reachable LISTENING state with
`isContinuous = false`, calling `toggleListen(true)` takes the toggle-off
path (status becomes IDLE) but still publishes the requested continuous
flag: `isContinuous` observably changes from `false` to `true`, so the
requested flag is not ignored on the toggle-off path. -/
theorem C3_counterexample :
    Reachable sListenF ∧
    sListenF.status = RecorderStatus.LISTENING ∧
    sListenF.isContinuous = false ∧
    (toggleListenV1 (some true) false sListenF).1.status =
      RecorderStatus.IDLE ∧
    (toggleListenV1 (some true) false sListenF).1.isContinuous = true :=
  ⟨reach_sListenF, by decide, by decide, by decide, by decide⟩

/-- C3 (amended): calling `toggleListen` while LISTENING or RECORDING acts
as a stop request and returns the machine to Idle whatever continuous flag
is requested (variant 1 also reports `false`); the flag is however not
ignored: the observable `isContinuous` after the call equals the requested
flag, in both variants. -/
theorem C3_toggle_off_amended (s : VADState) (b c2 acq : Bool)
    (hact : s.status = RecorderStatus.LISTENING ∨
      s.status = RecorderStatus.RECORDING) :
    (toggleListenV1 (some b) acq s).1.status = RecorderStatus.IDLE ∧
    (toggleListenV1 (some b) acq s).1.isContinuous = b ∧
    (toggleListenV1 (some b) acq s).2 = false ∧
    (toggleListenV2 c2 acq s).status = RecorderStatus.IDLE ∧
    (toggleListenV2 c2 acq s).isContinuous = c2 := by
  rcases hact with hs | hs <;>
    simp [toggleListenV1, toggleListenV2, shutdown, hs]

/-- C3 amended-claim witness at a concrete reachable LISTENING state. -/
theorem C3_witness :
    (toggleListenV1 (some true) false sListenF).1.status =
      RecorderStatus.IDLE ∧
    (toggleListenV2 true false sListenF).isContinuous = true := by
  have h := C3_toggle_off_amended sListenF true true false (Or.inl (by decide))
  exact ⟨h.1, h.2.2.2.2⟩

/-- C4: `shutdown` is idempotent, and after one invocation from any state
the observable session state equals its initial values with the frame-loop
handle and any armed silence-timer handle cleared. -/
theorem C4_shutdown_idempotent (s : VADState) :
    shutdown (shutdown s) = shutdown s ∧
    (shutdown s).status = RecorderStatus.IDLE ∧
    (shutdown s).currentVolume = 0 ∧
    (shutdown s).silenceProgress = 0 ∧
    (shutdown s).recordingDuration = 0 ∧
    (shutdown s).animationFrame = false ∧
    (shutdown s).silenceTimer = none := by
  refine ⟨?_, rfl, rfl, rfl, rfl, rfl, rfl⟩
  cases hm : s.mediaRecorder <;> simp [shutdown, hm]

/-- C7: a stop-finalize with an empty chunk buffer creates no Recording and
leaves the list unchanged (both variants); with a non-empty buffer exactly
one new Recording carrying the freshly generated id is prepended (both
variants). -/
theorem C7_finalize_list (s : VADState) (id : String) (now : ℚ) :
    (s.chunks = [] →
      (onstopV1 id now s).recordings = s.recordings ∧
      (onstopV2 id now s).recordings = s.recordings) ∧
    (s.chunks ≠ [] →
      (onstopV1 id now s).recordings = mkRecording id now s :: s.recordings ∧
      (onstopV2 id now s).recordings = mkRecording id now s :: s.recordings ∧
      (mkRecording id now s).id = id) := by
  constructor <;> intro hc <;> simp [onstopV1, onstopV2, hc, mkRecording]

/-- C7 witness: an empty-buffer finalize on the initial state and a
non-empty-buffer finalize on a reachable RECORDING state with one chunk. -/
theorem C7_witness :
    (onstopV1 "a" 2000 initState).recordings = initState.recordings ∧
    (onstopV2 "b" 2000 sRecC).recordings =
      mkRecording "b" 2000 sRecC :: sRecC.recordings := by
  refine ⟨((C7_finalize_list initState "a" 2000).1 (by decide)).1,
    ((C7_finalize_list sRecC "b" 2000).2 ?_).2.1⟩
  show sRecC.chunks ≠ []
  simp [sRecC, chunkArrive, sRec_eq, sR]

/-- C8 counterexample: a reachable finalize of the second variant after a
continuous-mode silence stop leaves the segment start instant set
(`some 1000`), not reset, refuting the claim for the cited second
variant. -/
theorem C8_counterexample :
    Reachable (onstopV2 "x" 2700 (fireTimer 2600 (chunkArrive 7 sArm))) ∧
    (chunkArrive 7 sArm).chunks ≠ [] ∧
    (onstopV2 "x" 2700 (fireTimer 2600 (chunkArrive 7 sArm))).recordingStartTime
      = some 1000 := by
  have hchunks : (chunkArrive 7 sArm).chunks = [7] := by
    rw [sArm_eq]; simp [chunkArrive, sA]
  refine ⟨?_, by simp [hchunks], ?_⟩
  · refine Reachable.stopV2 "x" 2700 (Reachable.fire 2600 2600
      (Reachable.chunk 7 reach_sArm ?_) ?_ ?_) ?_ ?_
    · rw [sArm_eq]; simp [sA]
    · rw [sArm_eq]; simp [chunkArrive, sA]
    · rw [sArm_eq]; norm_num [chunkArrive, sA]
    · rw [sArm_eq]; simp [fireTimer, stopMediaRecorder, chunkArrive, sA]
    · rw [sArm_eq]; norm_num [fireTimer, stopMediaRecorder, chunkArrive, sA]
  · rw [sArm_eq]
    simp [onstopV2, fireTimer, stopMediaRecorder, chunkArrive, sA, hchunks,
      sArm_eq]

/-- C8 (amended): after every stop-finalize the chunk buffer is empty in
both variants, and the first variant's handler also resets the segment
start instant; the second variant's handler leaves the start instant
unchanged (it is cleared only by `shutdown` or overwritten at the next
segment start). -/
theorem C8_finalize_amended (s : VADState) (id : String) (now : ℚ) :
    (onstopV1 id now s).chunks = [] ∧
    (onstopV1 id now s).recordingStartTime = none ∧
    (onstopV2 id now s).chunks = [] ∧
    (onstopV2 id now s).recordingStartTime = s.recordingStartTime := by
  by_cases hc : s.chunks = [] <;> simp [onstopV1, onstopV2, hc]

/-- C10: a failed acquisition from Idle or Error sets status to ERROR and
variant 1 reports `false` to the caller; the ERROR state is treated exactly
like IDLE by `toggleListen` (same result for any acquisition outcome), and
a successful retry from ERROR reaches LISTENING reporting `true`. -/
theorem C10_error_recoverable (s : VADState) (c : Option Bool) :
    ((s.status = RecorderStatus.IDLE ∨ s.status = RecorderStatus.ERROR) →
      (toggleListenV1 c false s).1.status = RecorderStatus.ERROR ∧
      (toggleListenV1 c false s).2 = false) ∧
    (∀ acq : Bool, s.status = RecorderStatus.ERROR →
      toggleListenV1 c acq s =
        toggleListenV1 c acq { s with status := RecorderStatus.IDLE }) ∧
    (s.status = RecorderStatus.ERROR →
      (toggleListenV1 c true s).1.status = RecorderStatus.LISTENING ∧
      (toggleListenV1 c true s).2 = true) := by
  refine ⟨?_, ?_, ?_⟩
  · rintro (hs | hs) <;> cases c <;>
      simp [toggleListenV1, initAudioFail, hs]
  · intro acq hs
    cases c <;> cases acq <;>
      simp [toggleListenV1, initAudioOk, initAudioFail, hs]
  · intro hs
    cases c <;> simp [toggleListenV1, initAudioOk, hs]

/-- C10 witness: failing acquisition from Idle yields the reachable ERROR
state `sErr`; a further failed toggle stays in ERROR, a successful one
recovers to LISTENING. -/
theorem C10_witness :
    (toggleListenV1 none false sErr).1.status = RecorderStatus.ERROR ∧
    (toggleListenV1 none true sErr).1.status = RecorderStatus.LISTENING := by
  have h := C10_error_recoverable sErr none
  exact ⟨(h.1 (Or.inr (by decide))).1, (h.2.2 (by decide)).1⟩

/-- A tick whose mean volume is at or below the threshold never changes the
status. -/
theorem analyze_status_quiet (st : AudioSettings) (now : ℚ) (frame : List ℕ)
    (s : VADState) (hle : ¬ avgVolume frame > st.sensitivity * (5 / 2)) :
    (analyze st now frame s).status = s.status := by
  cases han : s.analyser
  · simp [analyze, han]
  · simp [analyze, han, hle, apply_ite VADState.status]

/-- C1: on a sampling tick the voice-activity threshold is
`sensitivity * 2.5`; while LISTENING, a tick whose mean volume is at or
below the threshold leaves the machine LISTENING (it never transitions to
RECORDING), and a tick whose mean volume is strictly above it starts a
segment (recorder started, start instant recorded) and transitions to
RECORDING. -/
theorem C1_threshold_gates (st : AudioSettings) (now : ℚ) (frame : List ℕ)
    (s : VADState) (hr : Reachable s)
    (hs0 : 0 ≤ st.sensitivity) (hs100 : st.sensitivity ≤ 100)
    (hl : s.status = RecorderStatus.LISTENING) :
    (avgVolume frame ≤ st.sensitivity * (5 / 2) →
      (analyze st now frame s).status = RecorderStatus.LISTENING) ∧
    (avgVolume frame > st.sensitivity * (5 / 2) →
      (analyze st now frame s).status = RecorderStatus.RECORDING ∧
      (analyze st now frame s).mediaRecorder = some MRState.recording ∧
      (analyze st now frame s).recordingStartTime = some now) := by
  obtain ⟨hv, hmr, han⟩ := (reachable_inv hr).listen hl
  constructor
  · intro hle
    rw [analyze_status_quiet st now frame s (not_lt.mpr hle), hl]
  · intro hgt
    refine ⟨?_, ?_, ?_⟩ <;>
      simp [analyze, han, hgt, hv, hl, hmr, startMediaRecorder]

/-- C1 witness: with sensitivity 25 (threshold 62.5) a quiet tick (mean 8)
keeps the reachable LISTENING state LISTENING, and a loud tick (mean 200)
transitions it to RECORDING. -/
theorem C1_witness :
    (analyze stQ 1000 quietFrame sListenT).status =
      RecorderStatus.LISTENING ∧
    (analyze stQ 1000 loudFrame sListenT).status =
      RecorderStatus.RECORDING := by
  have hq := C1_threshold_gates stQ 1000 quietFrame sListenT reach_sListenT
    (by norm_num [stQ]) (by norm_num [stQ]) (by decide)
  have hld := C1_threshold_gates stQ 1000 loudFrame sListenT reach_sListenT
    (by norm_num [stQ]) (by norm_num [stQ]) (by decide)
  exact ⟨hq.1 (by rw [avg_quiet]; norm_num [stQ]),
    (hld.2 (by rw [avg_loud]; norm_num [stQ])).1⟩

/-- C2: when the silence deadline fires while RECORDING, the segment ends
(the recorder is stopped); with `isContinuous = true` the status becomes
LISTENING and the stream and audio context are kept as they were, with
`isContinuous = false` the status becomes IDLE and the stream and audio
context are released. -/
theorem C2_timeout_transition (s : VADState) (hr : Reachable s) (now d : ℚ)
    (hrec : s.status = RecorderStatus.RECORDING)
    (hd : s.silenceTimer = some d) :
    (s.isContinuous = true →
      (fireTimer now s).status = RecorderStatus.LISTENING ∧
      (fireTimer now s).mediaRecorder = some MRState.inactive ∧
      (fireTimer now s).stream = s.stream ∧
      (fireTimer now s).audioContext = s.audioContext) ∧
    (s.isContinuous = false →
      (fireTimer now s).status = RecorderStatus.IDLE ∧
      (fireTimer now s).mediaRecorder = some MRState.inactive ∧
      (fireTimer now s).stream = false ∧
      (fireTimer now s).audioContext = false) := by
  have hmr := ((reachable_inv hr).recg hrec).1
  constructor <;> intro hc <;>
    simp [fireTimer, stopMediaRecorder, shutdown, hmr, hc]

/-- C2 witness: at the reachable armed continuous RECORDING state, the
deadline firing at 2600 returns to LISTENING with the stream kept. -/
theorem C2_witness :
    (fireTimer 2600 sArm).status = RecorderStatus.LISTENING ∧
    (fireTimer 2600 sArm).stream = sArm.stream := by
  have h := C2_timeout_transition sArm reach_sArm 2600 2600
    (by rw [sArm_eq]; rfl) (by rw [sArm_eq]; rfl)
  have hc := h.1 (by rw [sArm_eq]; rfl)
  exact ⟨hc.1, hc.2.2.1⟩

/-- C6: in every reachable state the silence progress lies in [0,1] and is
nonzero only while RECORDING with an open window; and a tick while the
timer is armed publishes exactly `clamp(elapsed / silenceTimeoutMs, 0, 1)`. -/
theorem C6_progress_invariant (s : VADState) (hr : Reachable s) :
    (0 ≤ s.silenceProgress ∧ s.silenceProgress ≤ 1) ∧
    (s.silenceProgress ≠ 0 →
      s.status = RecorderStatus.RECORDING ∧ s.silenceTimerStart.isSome) ∧
    (∀ st now frame t0, ValidSettings st →
      s.silenceTimerStart = some t0 → s.silenceTimer.isSome →
      s.status = RecorderStatus.RECORDING → s.time ≤ now →
      ¬ avgVolume frame > st.sensitivity * (5 / 2) →
      (analyze st now frame s).silenceProgress =
        specClamp ((now - t0) / st.silenceTimeout)) := by
  have h := reachable_inv hr
  refine ⟨⟨h.prog_nonneg, h.prog_le_one⟩, h.prog_rec, ?_⟩
  intro st now frame t0 hst hts hsm hrec hnow hq
  have han := (h.recg hrec).2
  obtain ⟨d, hd⟩ := Option.isSome_iff_exists.mp hsm
  have ht0 : t0 ≤ now := le_trans (h.startle t0 hts) hnow
  have hmax : max ((now - t0) / st.silenceTimeout) 0 =
      (now - t0) / st.silenceTimeout :=
    max_eq_left (div_nonneg (by linarith) hst.2.2.le)
  simp [analyze, han, hq, hts, hrec, hd, specClamp, hmax]

/-- C6 witness: at the reachable armed state (window open since 1100), a
quiet tick at 1400 publishes clamp(300/1500, 0, 1) = 1/5. -/
theorem C6_witness :
    (0 ≤ sArm.silenceProgress ∧ sArm.silenceProgress ≤ 1) ∧
    (analyze stQ 1400 quietFrame sArm).silenceProgress =
      specClamp ((1400 - 1100) / stQ.silenceTimeout) := by
  have h := C6_progress_invariant sArm reach_sArm
  refine ⟨h.1, h.2.2 stQ 1400 quietFrame 1100 (by decide) ?_ ?_ ?_ ?_ ?_⟩
  · rw [sArm_eq]; rfl
  · rw [sArm_eq]; rfl
  · rw [sArm_eq]; rfl
  · rw [sArm_eq]; norm_num [sA]
  · rw [avg_quiet]; norm_num [stQ]

/-- C9: deleting a nonexistent id leaves the recordings list unchanged;
deleting an existing id (under the no-duplicate-ids invariant) removes
exactly that entry and preserves the relative order of the rest. -/
theorem C9_deleteRecording (l : List Recording) (id : String) :
    (id ∉ l.map Recording.id → deleteRecording id l = l) ∧
    (∀ l1 r l2, l = l1 ++ r :: l2 → r.id = id →
      (l.map Recording.id).Nodup → deleteRecording id l = l1 ++ l2) := by
  constructor
  · intro hid
    unfold deleteRecording
    apply List.filter_eq_self.mpr
    intro a ha
    simp only [ne_eq, decide_eq_true_eq]
    exact fun he => hid (he ▸ List.mem_map_of_mem Recording.id ha)
  · rintro l1 r l2 rfl hrid hnd
    subst hrid
    rw [List.map_append, List.map_cons] at hnd
    obtain ⟨h1, h2, hdisj⟩ := List.nodup_append.mp hnd
    obtain ⟨hrl2, -⟩ := List.nodup_cons.mp h2
    unfold deleteRecording
    rw [List.filter_append]
    have hfl1 : List.filter (fun a => a.id ≠ r.id) l1 = l1 := by
      apply List.filter_eq_self.mpr
      intro a ha
      simp only [ne_eq, decide_eq_true_eq]
      intro he
      exact hdisj (he ▸ List.mem_map_of_mem Recording.id ha)
        (List.mem_cons_self _ _)
    have hfl2 : List.filter (fun a => a.id ≠ r.id) l2 = l2 := by
      apply List.filter_eq_self.mpr
      intro a ha
      simp only [ne_eq, decide_eq_true_eq]
      intro he
      exact hrl2 (he ▸ List.mem_map_of_mem Recording.id ha)
    rw [hfl1, List.filter_cons_of_neg (by simp), hfl2]

/-- Sample recording with id x. -/
def recX : Recording where
  id := "x"
  blob := []
  url := ""
  timestamp := 0
  duration := 0

/-- Sample recording with id y. -/
def recY : Recording where
  id := "y"
  blob := [1]
  url := ""
  timestamp := 1
  duration := 1

/-- Sample recording with id z. -/
def recZ : Recording where
  id := "z"
  blob := [2]
  url := ""
  timestamp := 2
  duration := 2

/-- C9 witness: deleting an absent id is a no-op; deleting the middle id of
a three-element list keeps the outer two in order. -/
theorem C9_witness :
    deleteRecording "w" [recX, recY, recZ] = [recX, recY, recZ] ∧
    deleteRecording "y" [recX, recY, recZ] = [recX, recZ] := by
  refine ⟨(C9_deleteRecording [recX, recY, recZ] "w").1 ?_,
    (C9_deleteRecording [recX, recY, recZ] "y").2 [recX] recY [recZ]
      rfl (by simp [recY]) ?_⟩
  · simp [recX, recY, recZ]
  · simp [recX, recY, recZ]

/-- C5: within one continuous silence window (consecutive ticks at or below
threshold while RECORDING, under a non-decreasing clock and the settings of
that window), the published silence progress is non-decreasing from tick to
tick; and on a tick whose volume rises strictly above the threshold the
progress is set to exactly 0 within that same tick and the pending timeout
callback handle is cleared, even mid-countdown. -/
theorem C5_silence_window (st : AudioSettings) (s : VADState)
    (hr : Reachable s) (hT : 0 < st.silenceTimeout)
    (hrec : s.status = RecorderStatus.RECORDING) :
    (∀ now1 now2 f1 f2,
      s.time ≤ now1 → now1 ≤ now2 →
      ¬ avgVolume f1 > st.sensitivity * (5 / 2) →
      ¬ avgVolume f2 > st.sensitivity * (5 / 2) →
      (analyze st now1 f1 s).silenceProgress ≤
        (analyze st now2 f2 (analyze st now1 f1 s)).silenceProgress) ∧
    (∀ now fl, avgVolume fl > st.sensitivity * (5 / 2) →
      (analyze st now fl s).silenceProgress = 0 ∧
      (analyze st now fl s).silenceTimer = none) := by
  have h := reachable_inv hr
  have han := (h.recg hrec).2
  constructor
  · intro now1 now2 f1 f2 hn1 h12 hq1 hq2
    rcases hts : s.silenceTimerStart with _ | t0
    · have htm0 : s.silenceTimer = none := by
        have hiff := h.timer_iff
        rw [hts] at hiff
        simpa using hiff
      cases hv : s.isVoiceActive
      · simp [analyze, han, hq1, hq2, hts, htm0, hv]
      · have ht12 : (0 : ℚ) ≤ (now2 - now1) / st.silenceTimeout :=
          div_nonneg (by linarith) hT.le
        simp [analyze, han, hq1, hq2, hts, htm0, hv, hrec]
        exact ht12
    · obtain ⟨d, hd⟩ :=
        Option.isSome_iff_exists.mp (h.timer_iff.mpr (by simp [hts]))
      have ht0 : t0 ≤ now1 := le_trans (h.startle t0 hts) hn1
      simp [analyze, han, hq1, hq2, hts, hd, hrec]
      exact Or.inl ((div_le_div_right hT).mpr (by linarith))
  · intro now fl hgt
    constructor <;> simp [analyze, han, hgt]

/-- C5 witness: at the reachable armed state, progress does not decrease
between quiet ticks at 1200 and 1300, and a loud tick at 1200 zeroes the
progress and clears the timer handle. -/
theorem C5_witness :
    (analyze stQ 1200 quietFrame sArm).silenceProgress ≤
      (analyze stQ 1300 quietFrame
        (analyze stQ 1200 quietFrame sArm)).silenceProgress ∧
    (analyze stQ 1200 loudFrame sArm).silenceProgress = 0 ∧
    (analyze stQ 1200 loudFrame sArm).silenceTimer = none := by
  have h := C5_silence_window stQ sArm reach_sArm (by norm_num [stQ])
    (by rw [sArm_eq]; rfl)
  refine ⟨h.1 1200 1300 quietFrame quietFrame ?_ (by norm_num) ?_ ?_, ?_⟩
  · rw [sArm_eq]; norm_num [sA]
  · rw [avg_quiet]; norm_num [stQ]
  · rw [avg_quiet]; norm_num [stQ]
  · exact h.2 1200 loudFrame (by rw [avg_loud]; norm_num [stQ])
